import Mathlib

/-!
Verification of the door-state reconciliation and command-handling logic of the
alexa-garage-door-opener repository.

The development shallowly embeds the two Go Lambda handlers:

* `Monitor` embeds `lambda/monitor/main.go`: the scheduled poller that reads the
  door status from the Particle cloud, reconciles it with the persisted
  `DoorState` record, decides whether a threshold notification fires, and
  persists the new record.
* `Skill` embeds `lambda/alexa-skill/main.go`: the Alexa command handler that
  triggers the actuator, reads status, and records state in the store.

External effects (HTTP calls, DynamoDB reads/writes, SNS publish, the system
clock) are passed in as explicit inputs: an HTTP interaction is represented by
its observable outcome (network error, status code, parsed body), a store read
by an `Except` value (`Except.error` for a store failure, `Except.ok none` for
"no item", `Except.ok (some s)` for an existing record), and dispatch success by
a boolean. Go `int64` arithmetic is modelled by `Int` with Go's truncating
division `Int.tdiv` and remainder `Int.tmod`.
-/

namespace Monitor

/-- The `DoorState` record of `lambda/monitor/main.go` (stored in DynamoDB).
Go zero values are `""`/`0`/`false`. -/
structure DoorState where
  deviceId : String
  status : String
  lastChecked : Int
  lastOpenedTime : Int
  lastClosedTime : Int
  notificationSent : Bool
  durationOpenMins : Int
deriving Repr, DecidableEq

/-- The parsed body of the Particle variable-read response
(`ParticleVariableResponse` in `lambda/monitor/main.go`); `error = ""` models
the absent/empty error field. -/
structure ParticleVariableResponse where
  result : String
  error : String
deriving Repr, DecidableEq

/-- `getDoorStatus` of `lambda/monitor/main.go` (lines 164-196), with the HTTP
interaction abstracted into its observable outcome: `netErr` is the transport
error (if any), `statusCode` the HTTP status, `parsed` the result of JSON
unmarshaling (`none` = unparseable body). -/
def getDoorStatus (netErr : Option String) (statusCode : Int)
    (parsed : Option ParticleVariableResponse) : Except String String :=
  match netErr with
  | some e => Except.error e
  | none =>
    if statusCode ≠ 200 then Except.error "particle API error"
    else
      match parsed with
      | none => Except.error "error unmarshaling response"
      | some result =>
        if result.error ≠ "" then Except.error result.error
        else Except.ok result.result

/-- The fallback state `HandleMonitor` builds when the DynamoDB read errors
(`&DoorState{DeviceID: particleDeviceID, Status: "unknown"}`, other fields at
their Go zero values). -/
def fallbackState (devId : String) : DoorState :=
  { deviceId := devId, status := "unknown", lastChecked := 0, lastOpenedTime := 0,
    lastClosedTime := 0, notificationSent := false, durationOpenMins := 0 }

/-- Lines 108-150 of `HandleMonitor` without the notification side effect: copy
the previous record, stamp `lastChecked`, apply the transition detection
(lines 118-129), and compute `durationOpenMins` (lines 131-134 and 148-149).
The conditional `notificationSent := true` of line 144 is applied separately in
`monitorUpdate`, mirroring step 6 of the specified `reconcile` contract. -/
def reconcileNext (devId : String) (previousState : DoorState) (status : String)
    (currentTime : Int) : DoorState :=
  let newState : DoorState :=
    { deviceId := devId
      status := status
      lastChecked := currentTime
      lastOpenedTime := previousState.lastOpenedTime
      lastClosedTime := previousState.lastClosedTime
      notificationSent := previousState.notificationSent
      durationOpenMins := 0 }
  let newState :=
    if status ≠ previousState.status then
      if status = "open" then
        { newState with lastOpenedTime := currentTime, notificationSent := false }
      else if status = "closed" then
        { newState with lastClosedTime := currentTime, notificationSent := false }
      else newState
    else newState
  if status = "open" ∧ 0 < newState.lastOpenedTime then
    { newState with durationOpenMins := (currentTime - newState.lastOpenedTime).tdiv 60 }
  else
    { newState with durationOpenMins := 0 }

/-- The notification condition of `HandleMonitor` (lines 132 and 139): the door
is open with a recorded opening time, the open duration has reached the
threshold, and no notification was sent for this session. -/
def shouldNotify (devId : String) (previousState : DoorState) (status : String)
    (currentTime thresholdMinutes : Int) : Bool :=
  let n := reconcileNext devId previousState status currentTime
  decide (status = "open" ∧ 0 < n.lastOpenedTime ∧
    thresholdMinutes ≤ n.durationOpenMins ∧ n.notificationSent = false)

/-- Lines 108-150 of `HandleMonitor` in full: the state that will be persisted,
whether a notification dispatch was attempted, and whether it succeeded.
`notifyOk` tells whether `sendNotification` would succeed; `notificationSent`
is set to `true` only when the dispatch is attempted and succeeds (line 144). -/
def monitorUpdate (devId : String) (previousState : DoorState) (status : String)
    (currentTime thresholdMinutes : Int) (notifyOk : Bool) :
    DoorState × Bool × Bool :=
  let n := reconcileNext devId previousState status currentTime
  let attempted := shouldNotify devId previousState status currentTime thresholdMinutes
  if attempted && notifyOk then ({ n with notificationSent := true }, attempted, true)
  else (n, attempted, false)

/-- Observable outcome of one `HandleMonitor` invocation: the cycle aborts
before any store write (`readFailed`), crashes on a nil-pointer dereference
(`panicked`), or completes, writing `written` to the store, having successfully
dispatched a notification iff `notified`. -/
inductive MonitorOutcome where
  | readFailed (e : String) : MonitorOutcome
  | panicked : MonitorOutcome
  | completed (written : DoorState) (notified : Bool) : MonitorOutcome
deriving Repr, DecidableEq

/-- `HandleMonitor` of `lambda/monitor/main.go` (lines 84-161). `statusRead` is
the result of `getDoorStatus`, `stateRead` the result of `getDoorState`
(`Except.ok none` models `result.Item == nil`, returned as `nil, nil`). On a
state-read error the handler falls back to `fallbackState`; a `nil` state with
a `nil` error reaches line 113 (`previousState.LastOpenedTime`) and panics. -/
def HandleMonitor (devId : String) (statusRead : Except String String)
    (stateRead : Except String (Option DoorState))
    (currentTime thresholdMinutes : Int) (notifyOk : Bool) : MonitorOutcome :=
  match statusRead with
  | Except.error e => MonitorOutcome.readFailed e
  | Except.ok status =>
    let previousState : Option DoorState :=
      match stateRead with
      | Except.error _ => some (fallbackState devId)
      | Except.ok p => p
    match previousState with
    | none => MonitorOutcome.panicked
    | some p =>
      let r := monitorUpdate devId p status currentTime thresholdMinutes notifyOk
      MonitorOutcome.completed r.1 r.2.2

/-- The SNS message body built by `sendNotification` (lines 246-257), with the
formatted wall-clock time passed in as `timeStr`. -/
def notificationMessage (durationMins : Int) (timeStr : String) : String :=
  let hours := durationMins.tdiv 60
  let mins := durationMins.tmod 60
  if 0 < hours then
    " GARAGE DOOR ALERT\n\nYour garage door has been open for " ++ toString hours ++
      " hours and " ++ toString mins ++ " minutes.\n\nTime: " ++ timeStr
  else
    " GARAGE DOOR ALERT\n\nYour garage door has been open for " ++ toString mins ++
      " minutes.\n\nTime: " ++ timeStr

/-- State after `k` poll cycles that all observe `"open"` and whose
notification dispatches all succeed, starting from `s0`, the cycle `i` (for
`1 ≤ i ≤ k`) running at time `t i`. -/
def pollSeq (devId : String) (s0 : DoorState) (t : Nat → Int) (thr : Int) :
    Nat → DoorState
  | 0 => s0
  | k + 1 => (monitorUpdate devId (pollSeq devId s0 t thr k) "open" (t (k + 1)) thr true).1

/-- Whether the poll cycle `k` (for `1 ≤ k`) of `pollSeq` dispatched a
notification. -/
def notifiedAt (devId : String) (s0 : DoorState) (t : Nat → Int) (thr : Int)
    (k : Nat) : Bool :=
  (monitorUpdate devId (pollSeq devId s0 t thr (k - 1)) "open" (t k) thr true).2.2

/-- The open duration (in minutes) the code computes at poll cycle `i` of an
open session whose first cycle ran at time `t 1`. -/
def openDur (t : Nat → Int) (i : Nat) : Int :=
  (t i - t 1).tdiv 60

end Monitor

namespace Skill

/-- The `DoorState` record of `lambda/alexa-skill/main.go`. -/
structure DoorState where
  deviceId : String
  status : String
  lastChecked : Int
  lastOpenedTime : Int
  lastClosedTime : Int
  lastButtonPress : Int
  notificationSent : Bool
deriving Repr, DecidableEq

/-- The parsed body of a Particle function-call response
(`ParticleFunctionResponse` in `lambda/alexa-skill/main.go`, fields irrelevant
to control flow omitted). -/
structure ParticleFunctionResponse where
  returnValue : Int
  connected : Bool
deriving Repr, DecidableEq

/-- An Alexa response envelope as built by `buildResponse`
(`outputSpeech.type`, `outputSpeech.text`, `shouldEndSession`). -/
structure AlexaResponse where
  version : String
  speechType : String
  text : String
  shouldEndSession : Bool
deriving Repr, DecidableEq

/-- `buildResponse` of `lambda/alexa-skill/main.go` (lines 256-267). -/
def buildResponse (text : String) (shouldEnd : Bool) : AlexaResponse :=
  { version := "1.0", speechType := "PlainText", text := text,
    shouldEndSession := shouldEnd }

/-- `callParticleFunction` of `lambda/alexa-skill/main.go` (lines 270-317),
with the HTTP interaction abstracted into its observable outcome. On a 200
response with a parseable body it returns `funcResp.ReturnValue == 1`
(line 316). -/
def callParticleFunction (netErr : Option String) (statusCode : Int)
    (parsed : Option ParticleFunctionResponse) : Except String Bool :=
  match netErr with
  | some e => Except.error e
  | none =>
    if statusCode ≠ 200 then Except.error "particle API error"
    else
      match parsed with
      | none => Except.error "error unmarshaling response"
      | some funcResp => Except.ok (decide (funcResp.returnValue = 1))

/-- `handlePressButton` of `lambda/alexa-skill/main.go` (lines 181-206), as a
function of the `callParticleFunction` result. The DynamoDB update on success
is best-effort and does not change the response. -/
def handlePressButton (callResult : Except String Bool) : AlexaResponse :=
  match callResult with
  | Except.error _ =>
    buildResponse "Sorry, I couldn\x27t communicate with the garage door opener. Please try again." true
  | Except.ok success =>
    if success then
      buildResponse "Garage door button pressed. The relay has been activated for one second." true
    else
      buildResponse "The garage door button is already active. Please wait and try again." true

/-- The `additionalInfo` phrase of `handleGetStatus` (lines 231-239), as a
function of `openMins = (time.Now().Unix() - state.LastOpenedTime) / 60`. -/
def additionalInfo (openMins : Int) : String :=
  if 60 < openMins then
    let hours := openMins.tdiv 60
    let mins := openMins.tmod 60
    " It has been open for " ++ toString hours ++ " hours and " ++ toString mins ++ " minutes."
  else if 0 < openMins then
    " It has been open for " ++ toString openMins ++ " minutes."
  else ""

/-- The zero-value fallback record `updateButtonPress` builds when the store
read fails or finds no item (lines 396-409): `Status: "unknown"`. -/
def buttonPressFallback (devId : String) : DoorState :=
  { deviceId := devId, status := "unknown", lastChecked := 0, lastOpenedTime := 0,
    lastClosedTime := 0, lastButtonPress := 0, notificationSent := false }

/-- `updateButtonPress` of `lambda/alexa-skill/main.go` (lines 387-432), as a
function of the store read result; returns the record written to the store, or
`none` when `doorStateTable` is unset and the write is skipped. -/
def updateButtonPress (devId : String) (tableConfigured : Bool)
    (readResult : Except String (Option DoorState)) (currentTime : Int) :
    Option DoorState :=
  if tableConfigured = false then none
  else
    let state : DoorState :=
      match readResult with
      | Except.error _ => buttonPressFallback devId
      | Except.ok none => buttonPressFallback devId
      | Except.ok (some st) => st
    some { state with lastButtonPress := currentTime, lastChecked := currentTime }

/-- The zero-value fallback record `updateDoorStatus` builds when the store
read fails or finds no item (lines 444-455): only `DeviceID` is set, so
`Status` is the Go zero value `""`. -/
def doorStatusFallback (devId : String) : DoorState :=
  { deviceId := devId, status := "", lastChecked := 0, lastOpenedTime := 0,
    lastClosedTime := 0, lastButtonPress := 0, notificationSent := false }

/-- `updateDoorStatus` of `lambda/alexa-skill/main.go` (lines 435-491), as a
function of the store read result; returns the record written to the store, or
`none` when `doorStateTable` is unset and the write is skipped. -/
def updateDoorStatus (devId : String) (tableConfigured : Bool)
    (readResult : Except String (Option DoorState)) (status : String)
    (currentTime : Int) : Option DoorState :=
  if tableConfigured = false then none
  else
    let state : DoorState :=
      match readResult with
      | Except.error _ => doorStatusFallback devId
      | Except.ok none => doorStatusFallback devId
      | Except.ok (some st) => st
    let previousStatus := state.status
    let state := { state with status := status, lastChecked := currentTime }
    let state :=
      if status ≠ previousStatus then
        if status = "open" then
          { state with lastOpenedTime := currentTime, notificationSent := false }
        else if status = "closed" then
          { state with lastClosedTime := currentTime, notificationSent := false }
        else state
      else state
    some state

end Skill

/-- The duration phrase exactly as the specification describes it (section 4.3):
empty for zero or negative, a minutes-only form strictly below 60, and an
hours-and-minutes form from 60 upward, with floor division. Written from the
words of the spec for comparison with the code-derived renderings. -/
def specDurationPhrase (durationMinutes : Int) : String :=
  if durationMinutes ≤ 0 then ""
  else if durationMinutes < 60 then toString durationMinutes ++ " minutes"
  else
    toString (durationMinutes.fdiv 60) ++ " hours and " ++
      toString (durationMinutes.fmod 60) ++ " minutes"

namespace Monitor

/-- Closed form of `reconcileNext`: each field of the next record as a function
of the previous record, the observed status and the poll time. -/
theorem reconcileNext_eq (devId : String) (p : DoorState) (s : String) (now : Int) :
    reconcileNext devId p s now =
      { deviceId := devId
        status := s
        lastChecked := now
        lastOpenedTime := if s ≠ p.status ∧ s = "open" then now else p.lastOpenedTime
        lastClosedTime := if s ≠ p.status ∧ s = "closed" then now else p.lastClosedTime
        notificationSent :=
          if s ≠ p.status ∧ (s = "open" ∨ s = "closed") then false else p.notificationSent
        durationOpenMins :=
          if s = "open" ∧ 0 < (if s ≠ p.status ∧ s = "open" then now else p.lastOpenedTime) then
            (now - (if s ≠ p.status ∧ s = "open" then now else p.lastOpenedTime)).tdiv 60
          else 0 } := by
  by_cases h1 : s = p.status <;> by_cases h2 : s = "open" <;> by_cases h3 : s = "closed" <;>
    simp_all [reconcileNext] <;> split <;> simp_all

/-- The persisted state of a cycle differs from `reconcileNext` only in
`notificationSent`, which is forced to `true` when a dispatch succeeds. -/
theorem monitorUpdate_fst (devId : String) (p : DoorState) (s : String)
    (now thr : Int) (notifyOk : Bool) :
    (monitorUpdate devId p s now thr notifyOk).1 =
      if shouldNotify devId p s now thr && notifyOk then
        { reconcileNext devId p s now with notificationSent := true }
      else reconcileNext devId p s now := by
  by_cases h : (shouldNotify devId p s now thr && notifyOk) = true <;>
    simp [monitorUpdate, h]

/-- The second component of `monitorUpdate` is exactly the notification
condition. -/
theorem monitorUpdate_attempted (devId : String) (p : DoorState) (s : String)
    (now thr : Int) (notifyOk : Bool) :
    (monitorUpdate devId p s now thr notifyOk).2.1 = shouldNotify devId p s now thr := by
  by_cases h : (shouldNotify devId p s now thr && notifyOk) = true <;>
    simp [monitorUpdate, h]

/-- A dispatch is reported successful exactly when it is attempted and the
notifier succeeds. -/
theorem monitorUpdate_notified (devId : String) (p : DoorState) (s : String)
    (now thr : Int) (notifyOk : Bool) :
    (monitorUpdate devId p s now thr notifyOk).2.2 =
      (shouldNotify devId p s now thr && notifyOk) := by
  by_cases h : (shouldNotify devId p s now thr && notifyOk) = true <;>
    simp [monitorUpdate, h]

end Monitor

/-- Claim C1: the claim says that when the status read succeeds and the state
store holds no record, a default previous record (status unknown, zero
timestamps, notificationSent false) is synthesized and the cycle completes,
persisting the observed status. The code does not do this: `getDoorState`
returns `nil, nil` for a missing item, `HandleMonitor` substitutes the default
only when the error is non-nil, and then dereferences the nil record at
`previousState.LastOpenedTime`, so the cycle crashes with a nil-pointer panic
and nothing is written. -/
theorem c1_nil_state_nil_error_panics (devId : String) (t thr : Int) (notifyOk : Bool) :
    Monitor.HandleMonitor devId (Except.ok "open") (Except.ok none) t thr notifyOk =
      Monitor.MonitorOutcome.panicked := rfl

/-- Claim C7: when the observed status equals the previous status,
reconciliation preserves `lastOpenedTime`, `lastClosedTime` and
`notificationSent`; in particular repeated "open" observations never reset
`lastOpenedTime`, so the open duration accumulates from the original open
transition. -/
theorem c7_same_status_preserves_fields (devId : String) (p : Monitor.DoorState)
    (s : String) (now : Int) (h : s = p.status) :
    (Monitor.reconcileNext devId p s now).lastOpenedTime = p.lastOpenedTime ∧
    (Monitor.reconcileNext devId p s now).lastClosedTime = p.lastClosedTime ∧
    (Monitor.reconcileNext devId p s now).notificationSent = p.notificationSent := by
  simp [Monitor.reconcileNext_eq, h]

/-- A sample record of an open door (opened at time 7, last closed at 3, no
notification sent yet), used to instantiate universally quantified theorems. -/
def sampleOpen : Monitor.DoorState :=
  { deviceId := "dev", status := "open", lastChecked := 0, lastOpenedTime := 7,
    lastClosedTime := 3, notificationSent := false, durationOpenMins := 0 }

/-- A sample record of a closed door, used to instantiate universally
quantified theorems. -/
def sampleClosed : Monitor.DoorState :=
  { deviceId := "dev", status := "closed", lastChecked := 0, lastOpenedTime := 0,
    lastClosedTime := 2, notificationSent := false, durationOpenMins := 0 }

/-- Witness for C7 at a concrete state: a repeated "open" observation at time 99
keeps the opening time 7, the closing time 3 and the sent flag. -/
theorem c7_same_status_preserves_fields_witness :
    (Monitor.reconcileNext "dev" sampleOpen "open" 99).lastOpenedTime = 7 ∧
    (Monitor.reconcileNext "dev" sampleOpen "open" 99).lastClosedTime = 3 ∧
    (Monitor.reconcileNext "dev" sampleOpen "open" 99).notificationSent = false :=
  c7_same_status_preserves_fields "dev" sampleOpen "open" 99 rfl

/-- A sample record of a door open since time 1 with no notification sent,
used to instantiate universally quantified theorems. -/
def sampleOpenSince1 : Monitor.DoorState :=
  { deviceId := "dev", status := "open", lastChecked := 0, lastOpenedTime := 1,
    lastClosedTime := 0, notificationSent := false, durationOpenMins := 0 }

/-- Claim C3: when the notification condition holds but the dispatch fails, the
persisted state keeps `notificationSent = false`, so the next poll cycle
retries; `notificationSent` is set to `true` before persisting only when the
dispatch succeeds. -/
theorem c3_failed_dispatch_retries (devId : String) (p : Monitor.DoorState)
    (s : String) (now thr : Int)
    (h : Monitor.shouldNotify devId p s now thr = true) :
    (Monitor.monitorUpdate devId p s now thr false).2.1 = true ∧
    (Monitor.monitorUpdate devId p s now thr false).2.2 = false ∧
    (Monitor.monitorUpdate devId p s now thr false).1.notificationSent = false ∧
    (Monitor.monitorUpdate devId p s now thr true).1.notificationSent = true := by
  have h2 := h
  simp only [Monitor.shouldNotify, decide_eq_true_eq] at h2
  refine ⟨?_, ?_, ?_, ?_⟩
  · rw [Monitor.monitorUpdate_attempted]
    exact h
  · rw [Monitor.monitorUpdate_notified, h]
    rfl
  · rw [Monitor.monitorUpdate_fst]
    simp only [Bool.and_false, Bool.false_eq_true, if_false]
    exact h2.2.2.2
  · rw [Monitor.monitorUpdate_fst]
    simp [h]

/-- Witness for C3: a door open since time 1, observed open at time 7261 with
threshold 120 (duration 121 minutes), attempts a notification; a failed
dispatch persists `notificationSent = false`, a successful one `true`. -/
theorem c3_failed_dispatch_retries_witness :
    (Monitor.monitorUpdate "dev" sampleOpenSince1 "open" 7261 120 false).2.1 = true ∧
    (Monitor.monitorUpdate "dev" sampleOpenSince1 "open" 7261 120 false).2.2 = false ∧
    (Monitor.monitorUpdate "dev" sampleOpenSince1 "open" 7261 120 false).1.notificationSent = false ∧
    (Monitor.monitorUpdate "dev" sampleOpenSince1 "open" 7261 120 true).1.notificationSent = true :=
  c3_failed_dispatch_retries "dev" sampleOpenSince1 "open" 7261 120 (by decide)

/-- Claim C9: whenever the status read fails (network error, non-200 response,
unparseable body, or an error field in the body), `getDoorStatus` returns an
error and `HandleMonitor` aborts the cycle as `readFailed`, before any store
write; the persisted state is untouched. -/
theorem c9_status_read_failure_no_write (devId : String) (netErr : Option String)
    (code : Int) (parsed : Option Monitor.ParticleVariableResponse)
    (stateRead : Except String (Option Monitor.DoorState)) (now thr : Int)
    (notifyOk : Bool)
    (h : netErr ≠ none ∨ code ≠ 200 ∨ parsed = none ∨ ∀ r, parsed = some r → r.error ≠ "") :
    ∃ e, Monitor.getDoorStatus netErr code parsed = Except.error e ∧
      Monitor.HandleMonitor devId (Monitor.getDoorStatus netErr code parsed)
        stateRead now thr notifyOk = Monitor.MonitorOutcome.readFailed e := by
  match netErr with
  | some e => exact ⟨e, rfl, rfl⟩
  | none =>
    by_cases hc : code = 200
    · match parsed with
      | none =>
        refine ⟨"error unmarshaling response", ?_, ?_⟩ <;>
          simp [Monitor.getDoorStatus, Monitor.HandleMonitor, hc]
      | some r =>
        by_cases he : r.error = ""
        · exfalso
          rcases h with h | h | h | h
          · exact h rfl
          · exact h hc
          · exact Option.noConfusion h
          · exact (h r rfl) he
        · refine ⟨r.error, ?_, ?_⟩ <;>
            simp [Monitor.getDoorStatus, Monitor.HandleMonitor, hc, he]
    · refine ⟨"particle API error", ?_, ?_⟩ <;>
        simp [Monitor.getDoorStatus, Monitor.HandleMonitor, hc]

/-- Witness for C9: a 500 response with an unreadable body aborts the cycle
without touching the store, whatever the stored record. -/
theorem c9_status_read_failure_no_write_witness :
    ∃ e, Monitor.getDoorStatus none 500 none = Except.error e ∧
      Monitor.HandleMonitor "dev" (Monitor.getDoorStatus none 500 none)
        (Except.ok (some sampleOpen)) 7 120 true = Monitor.MonitorOutcome.readFailed e :=
  c9_status_read_failure_no_write "dev" none 500 none (Except.ok (some sampleOpen)) 7 120
    true (Or.inr (Or.inl (by decide)))

/-- Claim C10: when the command handler records a button press and the store
read returns an existing record, the written record changes only
`lastButtonPress` and `lastChecked` (both set to the current time); `status`,
`lastOpenedTime`, `lastClosedTime`, `notificationSent` (and `deviceId`) are
carried over unchanged. -/
theorem c10_button_press_frame (devId : String) (st : Skill.DoorState) (now : Int)
    (w : Skill.DoorState)
    (hw : Skill.updateButtonPress devId true (Except.ok (some st)) now = some w) :
    w.status = st.status ∧ w.lastOpenedTime = st.lastOpenedTime ∧
    w.lastClosedTime = st.lastClosedTime ∧ w.notificationSent = st.notificationSent ∧
    w.deviceId = st.deviceId ∧ w.lastButtonPress = now ∧ w.lastChecked = now := by
  simp only [Skill.updateButtonPress, Bool.true_eq_false, if_false, Option.some.injEq] at hw
  subst hw
  simp

/-- A sample record stored by the Alexa skill, used to instantiate universally
quantified theorems. -/
def sampleSkillState : Skill.DoorState :=
  { deviceId := "dev", status := "open", lastChecked := 10, lastOpenedTime := 7,
    lastClosedTime := 3, lastButtonPress := 5, notificationSent := true }

/-- The record `updateButtonPress` writes back for `sampleSkillState` at
time 42. -/
def sampleSkillPressed : Skill.DoorState :=
  { deviceId := "dev", status := "open", lastChecked := 42, lastOpenedTime := 7,
    lastClosedTime := 3, lastButtonPress := 42, notificationSent := true }

/-- Witness for C10: recording a button press at time 42 over
`sampleSkillState` updates exactly `lastButtonPress` and `lastChecked`. -/
theorem c10_button_press_frame_witness :
    sampleSkillPressed.status = sampleSkillState.status ∧
    sampleSkillPressed.lastOpenedTime = sampleSkillState.lastOpenedTime ∧
    sampleSkillPressed.lastClosedTime = sampleSkillState.lastClosedTime ∧
    sampleSkillPressed.notificationSent = sampleSkillState.notificationSent ∧
    sampleSkillPressed.deviceId = sampleSkillState.deviceId ∧
    sampleSkillPressed.lastButtonPress = 42 ∧ sampleSkillPressed.lastChecked = 42 :=
  c10_button_press_frame "dev" sampleSkillState 42 sampleSkillPressed rfl

/-- Claim C5 counterexample: a 200 response whose body parses with
`return_value = 2` is NOT an error: `callParticleFunction` returns success
`false` and the handler answers with the "already active" speech, while the
claim says any return value other than 0 and 1 is an error. -/
theorem c5_counterexample_return_value_two :
    Skill.callParticleFunction none 200 (some { returnValue := 2, connected := true }) =
      Except.ok false ∧
    Skill.handlePressButton
        (Skill.callParticleFunction none 200 (some { returnValue := 2, connected := true })) =
      Skill.buildResponse "The garage door button is already active. Please wait and try again." true :=
  ⟨rfl, rfl⟩

/-- Claim C5 (amended): `return_value = 1` means success; any other return
value (0 included) is treated as not-success and yields the "already active"
spoken response, not an error; errors arise only from transport failures,
non-200 responses or unparseable bodies. -/
theorem c5_return_code_mapping (r : Skill.ParticleFunctionResponse) :
    Skill.callParticleFunction none 200 (some r) = Except.ok (decide (r.returnValue = 1)) ∧
    (r.returnValue = 1 →
      Skill.handlePressButton (Skill.callParticleFunction none 200 (some r)) =
        Skill.buildResponse "Garage door button pressed. The relay has been activated for one second." true) ∧
    (r.returnValue ≠ 1 →
      Skill.handlePressButton (Skill.callParticleFunction none 200 (some r)) =
        Skill.buildResponse "The garage door button is already active. Please wait and try again." true) ∧
    (∀ e, Skill.handlePressButton (Except.error e) =
      Skill.buildResponse "Sorry, I couldn\x27t communicate with the garage door opener. Please try again." true) := by
  refine ⟨?_, ?_, ?_, fun e => rfl⟩
  · simp [Skill.callParticleFunction]
  · intro h1
    simp [Skill.callParticleFunction, Skill.handlePressButton, h1]
  · intro h1
    simp [Skill.callParticleFunction, Skill.handlePressButton, h1]

/-- Witness for C5 (amended) at the claim scenario: `return_value = 0` yields
the "already active" spoken response. -/
theorem c5_return_code_mapping_witness :
    Skill.handlePressButton
        (Skill.callParticleFunction none 200 (some { returnValue := 0, connected := true })) =
      Skill.buildResponse "The garage door button is already active. Please wait and try again." true :=
  (c5_return_code_mapping { returnValue := 0, connected := true }).2.2.1 (by decide)

/-- Claim C6 counterexample: at `durationMinutes = 60` the claim predicts the
phrase "1 hours and 0 minutes" (this is `specDurationPhrase 60`), but
`handleGetStatus` uses the hours form only for `openMins > 60` and renders
"60 minutes"; moreover at duration 0 `sendNotification` renders the
"0 minutes" form, not an empty phrase. -/
theorem c6_counterexample_sixty_minutes :
    Skill.additionalInfo 60 = " It has been open for 60 minutes." ∧
    specDurationPhrase 60 = "1 hours and 0 minutes" ∧
    Skill.additionalInfo 60 ≠ " It has been open for 1 hours and 0 minutes." ∧
    Monitor.notificationMessage 0 "T" =
      " GARAGE DOOR ALERT\n\nYour garage door has been open for 0 minutes.\n\nTime: T" ∧
    specDurationPhrase 0 = "" :=
  ⟨by decide, by decide, by decide, by decide, by decide⟩

/-- Claim C6 (amended): `handleGetStatus` renders "<N> minutes" for
`0 < durationMinutes ≤ 60` (so 60 renders "60 minutes", not the hours form),
"<H> hours and <M> minutes" with truncating division for `durationMinutes > 60`,
and the empty string for zero or negative durations; `sendNotification` uses the
hours form for `durationMinutes ≥ 60` and the minutes form for
`0 ≤ durationMinutes < 60`, rendering "0 minutes" (not an empty phrase) at
zero; on the values where the hours form is used, truncating division agrees
with the floor division of the spec phrase. -/
theorem c6_duration_phrasing (d : Int) (ts : String) :
    (d ≤ 0 → Skill.additionalInfo d = "") ∧
    (0 < d → d ≤ 60 →
      Skill.additionalInfo d = " It has been open for " ++ toString d ++ " minutes.") ∧
    (60 < d →
      Skill.additionalInfo d =
        " It has been open for " ++ toString (d.tdiv 60) ++ " hours and " ++
          toString (d.tmod 60) ++ " minutes.") ∧
    (60 ≤ d →
      Monitor.notificationMessage d ts =
        " GARAGE DOOR ALERT\n\nYour garage door has been open for " ++
          toString (d.tdiv 60) ++ " hours and " ++ toString (d.tmod 60) ++
          " minutes.\n\nTime: " ++ ts) ∧
    (0 ≤ d → d < 60 →
      Monitor.notificationMessage d ts =
        " GARAGE DOOR ALERT\n\nYour garage door has been open for " ++ toString d ++
          " minutes.\n\nTime: " ++ ts) ∧
    (0 < d → d < 60 → specDurationPhrase d = toString d ++ " minutes") ∧
    (60 ≤ d →
      specDurationPhrase d =
        toString (d.tdiv 60) ++ " hours and " ++ toString (d.tmod 60) ++ " minutes") := by
  refine ⟨?_, ?_, ?_, ?_, ?_, ?_, ?_⟩
  · intro h
    simp [Skill.additionalInfo, show ¬(60 < d) by omega, show ¬(0 < d) by omega]
  · intro h1 h2
    simp [Skill.additionalInfo, show ¬(60 < d) by omega, h1]
  · intro h
    simp [Skill.additionalInfo, h]
  · intro h
    have hpos : 0 < d.tdiv 60 := by
      rw [Int.tdiv_eq_ediv (by omega) (by norm_num)]
      have h1 : (1 : Int) ≤ d / 60 := by
        rw [Int.le_ediv_iff_mul_le (by norm_num)]
        omega
      omega
    simp [Monitor.notificationMessage, hpos]
  · intro h1 h2
    have hz : d.tdiv 60 = 0 := by
      rw [Int.tdiv_eq_ediv h1 (by norm_num)]
      exact Int.ediv_eq_zero_of_lt h1 h2
    have hmod : d.tmod 60 = d := by
      rw [Int.tmod_eq_emod h1 (by norm_num)]
      exact Int.emod_eq_of_lt h1 h2
    simp [Monitor.notificationMessage, hz, hmod]
  · intro h1 h2
    simp [specDurationPhrase, show ¬(d ≤ 0) by omega, h2]
  · intro h
    have hdiv : d.fdiv 60 = d.tdiv 60 := by
      rw [Int.fdiv_eq_ediv _ (by norm_num), Int.tdiv_eq_ediv (by omega) (by norm_num)]
    have hmod : d.fmod 60 = d.tmod 60 := by
      rw [Int.fmod_eq_emod _ (by norm_num), Int.tmod_eq_emod (by omega) (by norm_num)]
    simp [specDurationPhrase, show ¬(d ≤ 0) by omega, show ¬(d < 60) by omega, hdiv, hmod]

/-- Witness for C6 (amended) at the claim scenarios: 135 renders the hours
form, 45 the minutes form, 0 the empty string (in `handleGetStatus`). -/
theorem c6_duration_phrasing_witness :
    Skill.additionalInfo 135 = " It has been open for 2 hours and 15 minutes." ∧
    Skill.additionalInfo 45 = " It has been open for 45 minutes." ∧
    Skill.additionalInfo 0 = "" := by
  refine ⟨?_, ?_, ?_⟩
  · have h := (c6_duration_phrasing 135 "T").2.2.1 (by norm_num)
    rw [h]
    decide
  · have h := (c6_duration_phrasing 45 "T").2.1 (by norm_num) (by norm_num)
    rw [h]
    decide
  · exact (c6_duration_phrasing 0 "T").1 (by norm_num)

/-- A sample record claiming the door open since time 100 with no notification
sent, used with an observation time earlier than the opening time. -/
def sampleOpenSince100 : Monitor.DoorState :=
  { deviceId := "dev", status := "open", lastChecked := 0, lastOpenedTime := 100,
    lastClosedTime := 0, notificationSent := false, durationOpenMins := 0 }

/-- Claim C8 counterexample: with previous state open since time 100 and an
observation at time 39 (a store record written under a later clock), the guard
of the claim holds (status "open", lastOpenedTime = 100 > 0) but the code
computes `(39 - 100) / 60 = -1` with Go truncating division, not the floor
division `-2` the claim specifies. -/
theorem c8_counterexample_truncating_division :
    (Monitor.reconcileNext "dev" sampleOpenSince100 "open" 39).status = "open" ∧
    (Monitor.reconcileNext "dev" sampleOpenSince100 "open" 39).lastOpenedTime = 100 ∧
    (Monitor.reconcileNext "dev" sampleOpenSince100 "open" 39).durationOpenMins = -1 ∧
    Int.fdiv (39 - 100) 60 = -2 :=
  ⟨by decide, by decide, by decide, by decide⟩

/-- Claim C8 (amended): in each poll cycle `durationMinutes` is
`(now - lastOpenedTime) / 60` with Go truncating division — which agrees with
the floor division of the claim whenever `lastOpenedTime ≤ now` — when the new
status is "open" and `lastOpenedTime > 0`, and 0 otherwise; a notification is
attempted exactly when the new status is "open" AND `lastOpenedTime > 0` AND
`durationMinutes ≥ threshold` AND `notificationSent` is false. -/
theorem c8_duration_and_notify (devId : String) (p : Monitor.DoorState) (s : String)
    (now thr : Int) (notifyOk : Bool) (n : Monitor.DoorState)
    (hn : n = Monitor.reconcileNext devId p s now) :
    (n.durationOpenMins =
      if s = "open" ∧ 0 < n.lastOpenedTime then (now - n.lastOpenedTime).tdiv 60 else 0) ∧
    ((Monitor.monitorUpdate devId p s now thr notifyOk).2.1 = true ↔
      (n.status = "open" ∧ 0 < n.lastOpenedTime ∧ thr ≤ n.durationOpenMins ∧
        n.notificationSent = false)) ∧
    (n.lastOpenedTime ≤ now →
      n.durationOpenMins =
        if s = "open" ∧ 0 < n.lastOpenedTime then Int.fdiv (now - n.lastOpenedTime) 60
        else 0) := by
  subst hn
  have hdur : (Monitor.reconcileNext devId p s now).durationOpenMins =
      if s = "open" ∧ 0 < (Monitor.reconcileNext devId p s now).lastOpenedTime then
        (now - (Monitor.reconcileNext devId p s now).lastOpenedTime).tdiv 60
      else 0 := by
    rw [Monitor.reconcileNext_eq]
  have hst : (Monitor.reconcileNext devId p s now).status = s := by
    rw [Monitor.reconcileNext_eq]
  refine ⟨hdur, ?_, ?_⟩
  · rw [Monitor.monitorUpdate_attempted, hst]
    simp only [Monitor.shouldNotify, decide_eq_true_eq]
  · intro hle
    rw [hdur]
    split
    · rw [Int.tdiv_eq_ediv (by omega) (by norm_num), Int.fdiv_eq_ediv _ (by norm_num)]
    · rfl

/-- Witness for C8 (amended) at the claim scenario: open since T = 1 with
notificationSent false, observed "open" at now = T + 7260 with threshold 120
gives durationMinutes = 121 and an attempted notification. -/
theorem c8_duration_and_notify_witness :
    (Monitor.reconcileNext "dev" sampleOpenSince1 "open" 7261).durationOpenMins = 121 ∧
    (Monitor.monitorUpdate "dev" sampleOpenSince1 "open" 7261 120 true).2.1 = true := by
  constructor
  · have h := (c8_duration_and_notify "dev" sampleOpenSince1 "open" 7261 120 true
      (Monitor.reconcileNext "dev" sampleOpenSince1 "open" 7261) rfl).1
    rw [h]
    decide
  · exact (c8_duration_and_notify "dev" sampleOpenSince1 "open" 7261 120 true
      (Monitor.reconcileNext "dev" sampleOpenSince1 "open" 7261) rfl).2.1.mpr (by decide)

namespace Skill

/-- Closed form of `updateDoorStatus` on a successful read of an existing
record. -/
theorem updateDoorStatus_ok_some (devId : String) (q : DoorState) (s : String)
    (now : Int) :
    updateDoorStatus devId true (Except.ok (some q)) s now =
      some
        { deviceId := q.deviceId
          status := s
          lastChecked := now
          lastOpenedTime := if s ≠ q.status ∧ s = "open" then now else q.lastOpenedTime
          lastClosedTime := if s ≠ q.status ∧ s = "closed" then now else q.lastClosedTime
          lastButtonPress := q.lastButtonPress
          notificationSent :=
            if s ≠ q.status ∧ (s = "open" ∨ s = "closed") then false
            else q.notificationSent } := by
  by_cases h1 : s = q.status <;> by_cases h2 : s = "open" <;> by_cases h3 : s = "closed" <;>
    simp_all [updateDoorStatus]

/-- A failed store read makes `updateDoorStatus` proceed from the zero-value
fallback record. -/
theorem updateDoorStatus_error (devId e s : String) (now : Int) :
    updateDoorStatus devId true (Except.error e) s now =
      updateDoorStatus devId true (Except.ok (some (doorStatusFallback devId))) s now := rfl

/-- A store read finding no record makes `updateDoorStatus` proceed from the
zero-value fallback record. -/
theorem updateDoorStatus_none (devId s : String) (now : Int) :
    updateDoorStatus devId true (Except.ok none) s now =
      updateDoorStatus devId true (Except.ok (some (doorStatusFallback devId))) s now := rfl

/-- Closed form of `updateButtonPress` on a successful read of an existing
record. -/
theorem updateButtonPress_ok_some (devId : String) (st : DoorState) (now : Int) :
    updateButtonPress devId true (Except.ok (some st)) now =
      some { st with lastButtonPress := now, lastChecked := now } := rfl

/-- A failed store read makes `updateButtonPress` proceed from its fallback
record. -/
theorem updateButtonPress_error (devId e : String) (now : Int) :
    updateButtonPress devId true (Except.error e) now =
      some { buttonPressFallback devId with lastButtonPress := now, lastChecked := now } := rfl

/-- A store read finding no record makes `updateButtonPress` proceed from its
fallback record. -/
theorem updateButtonPress_none (devId : String) (now : Int) :
    updateButtonPress devId true (Except.ok none) now =
      some { buttonPressFallback devId with lastButtonPress := now, lastChecked := now } := rfl

end Skill

/-- Claim C4: across poller and command-handler updates, `notificationSent`
becomes true only while the persisted status is "open" and only once the
persisted open duration has reached the threshold; every transition into
"closed" persists the flag as false, every transition into "open" persists it
as false for any positive threshold, and the command handler never sets the
flag to true (it can only carry an already-true flag from the record it
read). -/
theorem c4_notification_flag_invariants :
    (∀ (devId : String) (p : Monitor.DoorState) (s : String) (now thr : Int) (notifyOk : Bool),
      p.notificationSent = false →
      (Monitor.monitorUpdate devId p s now thr notifyOk).1.notificationSent = true →
      (Monitor.monitorUpdate devId p s now thr notifyOk).1.status = "open" ∧
        thr ≤ (Monitor.monitorUpdate devId p s now thr notifyOk).1.durationOpenMins) ∧
    (∀ (devId : String) (p : Monitor.DoorState) (s : String) (now thr : Int) (notifyOk : Bool),
      s ≠ p.status → s = "closed" →
      (Monitor.monitorUpdate devId p s now thr notifyOk).1.notificationSent = false) ∧
    (∀ (devId : String) (p : Monitor.DoorState) (s : String) (now thr : Int) (notifyOk : Bool),
      s ≠ p.status → s = "open" → 0 < thr →
      (Monitor.monitorUpdate devId p s now thr notifyOk).1.notificationSent = false) ∧
    (∀ (devId : String) (tc : Bool) (rr : Except String (Option Skill.DoorState))
      (s : String) (now : Int) (st : Skill.DoorState),
      Skill.updateDoorStatus devId tc rr s now = some st → st.notificationSent = true →
      ∃ q, rr = Except.ok (some q) ∧ q.notificationSent = true) ∧
    (∀ (devId : String) (q : Skill.DoorState) (s : String) (now : Int) (st : Skill.DoorState),
      Skill.updateDoorStatus devId true (Except.ok (some q)) s now = some st →
      s ≠ q.status → (s = "open" ∨ s = "closed") → st.notificationSent = false) ∧
    (∀ (devId : String) (tc : Bool) (rr : Except String (Option Skill.DoorState)) (now : Int)
      (st : Skill.DoorState),
      Skill.updateButtonPress devId tc rr now = some st → st.notificationSent = true →
      ∃ q, rr = Except.ok (some q) ∧ q.notificationSent = true) := by
  refine ⟨?_, ?_, ?_, ?_, ?_, ?_⟩
  · intro devId p s now thr notifyOk hp hw
    rw [Monitor.monitorUpdate_fst] at hw ⊢
    by_cases hb : (Monitor.shouldNotify devId p s now thr && notifyOk) = true
    · have h2 : Monitor.shouldNotify devId p s now thr = true :=
        ((Bool.and_eq_true _ _).mp hb).1
      simp only [Monitor.shouldNotify, decide_eq_true_eq] at h2
      obtain ⟨hs, hlot, hthr, hsent⟩ := h2
      simp only [hb, if_true]
      constructor
      · show (Monitor.reconcileNext devId p s now).status = "open"
        rw [Monitor.reconcileNext_eq]
        exact hs
      · exact hthr
    · exfalso
      simp only [hb, if_false] at hw
      rw [Monitor.reconcileNext_eq] at hw
      simp [hp] at hw
  · intro devId p s now thr notifyOk hne hs
    subst hs
    rw [Monitor.monitorUpdate_fst]
    have hsn : Monitor.shouldNotify devId p "closed" now thr = false := by
      simp [Monitor.shouldNotify]
    simp only [hsn, Bool.false_and, Bool.false_eq_true, if_false]
    rw [Monitor.reconcileNext_eq]
    simp [hne]
  · intro devId p s now thr notifyOk hne hs hthr
    subst hs
    have hdur0 : (Monitor.reconcileNext devId p "open" now).durationOpenMins = 0 := by
      rw [Monitor.reconcileNext_eq]
      simp only [hne, ne_eq, not_false_eq_true, true_and, if_true]
      split <;> simp
    have hsn : Monitor.shouldNotify devId p "open" now thr = false := by
      simp only [Monitor.shouldNotify, decide_eq_false_iff_not]
      rintro ⟨-, -, hc, -⟩
      rw [hdur0] at hc
      omega
    rw [Monitor.monitorUpdate_fst]
    simp only [hsn, Bool.false_and, Bool.false_eq_true, if_false]
    rw [Monitor.reconcileNext_eq]
    simp [hne]
  · intro devId tc rr s now st h hsent
    cases tc
    · simp [Skill.updateDoorStatus] at h
    · cases rr with
      | error e =>
        exfalso
        rw [Skill.updateDoorStatus_error, Skill.updateDoorStatus_ok_some] at h
        simp only [Option.some.injEq] at h
        subst h
        simp [Skill.doorStatusFallback] at hsent
      | ok op =>
        cases op with
        | none =>
          exfalso
          rw [Skill.updateDoorStatus_none, Skill.updateDoorStatus_ok_some] at h
          simp only [Option.some.injEq] at h
          subst h
          simp [Skill.doorStatusFallback] at hsent
        | some q =>
          refine ⟨q, rfl, ?_⟩
          rw [Skill.updateDoorStatus_ok_some] at h
          simp only [Option.some.injEq] at h
          subst h
          simp only at hsent
          split at hsent
          · exact Bool.noConfusion hsent
          · exact hsent
  · intro devId q s now st h hne hoc
    rw [Skill.updateDoorStatus_ok_some] at h
    simp only [Option.some.injEq] at h
    subst h
    rcases hoc with h1 | h1 <;> subst h1 <;> simp [hne]
  · intro devId tc rr now st h hsent
    cases tc
    · simp [Skill.updateButtonPress] at h
    · cases rr with
      | error e =>
        exfalso
        rw [Skill.updateButtonPress_error] at h
        simp only [Option.some.injEq] at h
        subst h
        simp [Skill.buttonPressFallback] at hsent
      | ok op =>
        cases op with
        | none =>
          exfalso
          rw [Skill.updateButtonPress_none] at h
          simp only [Option.some.injEq] at h
          subst h
          simp [Skill.buttonPressFallback] at hsent
        | some q =>
          refine ⟨q, rfl, ?_⟩
          rw [Skill.updateButtonPress_ok_some] at h
          simp only [Option.some.injEq] at h
          subst h
          simpa using hsent

/-- Witness for C4 at concrete states: a transition into "open" at time 5 with
threshold 120 persists `notificationSent = false`, and a transition into
"closed" at time 9 does as well. -/
theorem c4_notification_flag_invariants_witness :
    (Monitor.monitorUpdate "dev" sampleClosed "open" 5 120 true).1.notificationSent = false ∧
    (Monitor.monitorUpdate "dev" sampleOpen "closed" 9 120 true).1.notificationSent = false :=
  ⟨c4_notification_flag_invariants.2.2.1 "dev" sampleClosed "open" 5 120 true (by decide)
      rfl (by norm_num),
    c4_notification_flag_invariants.2.1 "dev" sampleOpen "closed" 9 120 true (by decide) rfl⟩

namespace Monitor

/-- The open duration at the first cycle of a session is zero. -/
theorem openDur_one (t : Nat → Int) : openDur t 1 = 0 := by
  unfold openDur
  simp

/-- Within a session, the computed open duration is nonnegative once the poll
times are monotone. -/
theorem openDur_nonneg (t : Nat → Int) (hm : ∀ j k, j ≤ k → t j ≤ t k) {j : Nat}
    (h1 : 1 ≤ j) : 0 ≤ openDur t j := by
  unfold openDur
  have h := hm 1 j h1
  rw [Int.tdiv_eq_ediv (by omega) (by norm_num)]
  exact Int.ediv_nonneg (by omega) (by norm_num)

/-- Within a session, the computed open duration is monotone in the poll
index once the poll times are monotone. -/
theorem openDur_mono (t : Nat → Int) (hm : ∀ j k, j ≤ k → t j ≤ t k) {j k : Nat}
    (h1 : 1 ≤ j) (hjk : j ≤ k) : openDur t j ≤ openDur t k := by
  unfold openDur
  have ha := hm 1 j h1
  have hb := hm 1 k (le_trans h1 hjk)
  have hc := hm j k hjk
  rw [Int.tdiv_eq_ediv (by omega) (by norm_num), Int.tdiv_eq_ediv (by omega) (by norm_num)]
  exact Int.ediv_le_ediv (by norm_num) (by omega)

/-- Invariant of an all-"open" poll sequence with successful dispatches,
starting outside an open session: after cycle `k ≥ 1` the persisted record is
open since `t 1`, carries the duration of cycle `k`, and has `notificationSent`
set exactly when that duration has reached the threshold. -/
theorem pollSeq_inv (devId : String) (s0 : DoorState) (t : Nat → Int) (thr : Int)
    (hs0 : s0.status ≠ "open") (ht1 : 0 < t 1) (hm : ∀ j k, j ≤ k → t j ≤ t k) :
    ∀ k, 1 ≤ k → pollSeq devId s0 t thr k =
      { deviceId := devId
        status := "open"
        lastChecked := t k
        lastOpenedTime := t 1
        lastClosedTime := s0.lastClosedTime
        notificationSent := decide (thr ≤ openDur t k)
        durationOpenMins := openDur t k } := by
  intro k hk
  induction k with
  | zero => omega
  | succ m ih =>
    by_cases hm1 : 1 ≤ m
    · have hInv := ih hm1
      show (monitorUpdate devId (pollSeq devId s0 t thr m) "open" (t (m + 1)) thr true).1 = _
      rw [hInv, monitorUpdate_fst]
      have ht1m : 0 < t (m + 1) := by
        have := hm 1 (m + 1) (by omega)
        omega
      have hrec : reconcileNext devId
          { deviceId := devId
            status := "open"
            lastChecked := t m
            lastOpenedTime := t 1
            lastClosedTime := s0.lastClosedTime
            notificationSent := decide (thr ≤ openDur t m)
            durationOpenMins := openDur t m } "open" (t (m + 1)) =
          { deviceId := devId
            status := "open"
            lastChecked := t (m + 1)
            lastOpenedTime := t 1
            lastClosedTime := s0.lastClosedTime
            notificationSent := decide (thr ≤ openDur t m)
            durationOpenMins := openDur t (m + 1) } := by
        rw [reconcileNext_eq]
        simp [ht1, openDur]
      rw [hrec]
      by_cases hsm : thr ≤ openDur t m
      · have hsn : shouldNotify devId
            { deviceId := devId
              status := "open"
              lastChecked := t m
              lastOpenedTime := t 1
              lastClosedTime := s0.lastClosedTime
              notificationSent := decide (thr ≤ openDur t m)
              durationOpenMins := openDur t m } "open" (t (m + 1)) thr = false := by
          simp only [shouldNotify, hrec, decide_eq_false_iff_not]
          rintro ⟨-, -, -, hv⟩
          simp [hsm] at hv
        have hle : thr ≤ openDur t (m + 1) :=
          le_trans hsm (openDur_mono t hm hm1 (by omega))
        simp [hsn, hsm, hle]
      · have hsn : shouldNotify devId
            { deviceId := devId
              status := "open"
              lastChecked := t m
              lastOpenedTime := t 1
              lastClosedTime := s0.lastClosedTime
              notificationSent := decide (thr ≤ openDur t m)
              durationOpenMins := openDur t m } "open" (t (m + 1)) thr =
            decide (thr ≤ openDur t (m + 1)) := by
          simp only [shouldNotify, hrec]
          simp [ht1, hsm]
        by_cases hc : thr ≤ openDur t (m + 1)
        · simp [hsn, hc]
        · simp [hsn, hc]
          omega
    · have hm0 : m = 0 := by omega
      subst hm0
      show (monitorUpdate devId s0 "open" (t 1) thr true).1 = _
      rw [monitorUpdate_fst]
      have hrec : reconcileNext devId s0 "open" (t 1) =
          { deviceId := devId
            status := "open"
            lastChecked := t 1
            lastOpenedTime := t 1
            lastClosedTime := s0.lastClosedTime
            notificationSent := false
            durationOpenMins := 0 } := by
        rw [reconcileNext_eq]
        have hne : "open" ≠ s0.status := Ne.symm hs0
        simp [hne, ht1]
      have hsn : shouldNotify devId s0 "open" (t 1) thr = decide (thr ≤ 0) := by
        simp only [shouldNotify, hrec]
        simp [ht1]
      rw [openDur_one]
      by_cases hc : thr ≤ (0 : Int)
      · simp [hsn, hrec, hc]
      · simp [hsn, hrec, hc]

end Monitor

namespace Monitor

/-- The notification condition during an ongoing open session (previous record
already "open" with a positive opening time): it reduces to "duration reached
the threshold and not yet notified". -/
theorem shouldNotify_open_state (devId : String) (q : DoorState) (now thr : Int)
    (hq : q.status = "open") (hlot : 0 < q.lastOpenedTime) :
    shouldNotify devId q "open" now thr =
      decide (thr ≤ (now - q.lastOpenedTime).tdiv 60 ∧ q.notificationSent = false) := by
  simp only [shouldNotify, reconcileNext_eq]
  simp [hq, hlot]

end Monitor

/-- Claim C2: over any sequence of consecutive poll cycles that all observe
"open", with every dispatched notification succeeding and starting from a
record that is not "open" (so cycle 1 is the transition into the open session),
a notification is dispatched at cycle `i` exactly when the computed open
duration first reaches the threshold there — on no later cycle of the session
is another one dispatched. -/
theorem c2_notification_once_per_open_session (devId : String)
    (s0 : Monitor.DoorState) (t : Nat → Int) (thr : Int)
    (hs0 : s0.status ≠ "open") (ht1 : 0 < t 1)
    (hm : ∀ j k, j ≤ k → t j ≤ t k) (i : Nat) (hi : 1 ≤ i) :
    (Monitor.notifiedAt devId s0 t thr i = true ↔
      (thr ≤ Monitor.openDur t i ∧ ∀ j, 1 ≤ j → j < i → Monitor.openDur t j < thr)) := by
  obtain ⟨m, rfl⟩ : ∃ m, i = m + 1 := ⟨i - 1, by omega⟩
  unfold Monitor.notifiedAt
  simp only [Nat.add_sub_cancel]
  rw [Monitor.monitorUpdate_notified, Bool.and_true]
  by_cases hm1 : 1 ≤ m
  · rw [Monitor.pollSeq_inv devId s0 t thr hs0 ht1 hm m hm1]
    rw [Monitor.shouldNotify_open_state devId _ (t (m + 1)) thr rfl ht1]
    dsimp only
    simp only [decide_eq_true_eq, Monitor.openDur]
    by_cases hsm : thr ≤ (t m - t 1).tdiv 60
    · constructor
      · rintro ⟨-, hv⟩
        simp [hsm] at hv
      · rintro ⟨-, hall⟩
        have := hall m hm1 (by omega)
        omega
    · constructor
      · rintro ⟨hd, -⟩
        refine ⟨hd, ?_⟩
        intro j h1 h2
        have hj := Monitor.openDur_mono t hm h1 (show j ≤ m by omega)
        simp only [Monitor.openDur] at hj
        omega
      · rintro ⟨hd, -⟩
        refine ⟨hd, ?_⟩
        simp [hsm]
  · have hm0 : m = 0 := by omega
    subst hm0
    rw [show Monitor.pollSeq devId s0 t thr 0 = s0 from rfl]
    have hrec : Monitor.reconcileNext devId s0 "open" (t 1) =
        { deviceId := devId
          status := "open"
          lastChecked := t 1
          lastOpenedTime := t 1
          lastClosedTime := s0.lastClosedTime
          notificationSent := false
          durationOpenMins := 0 } := by
      rw [Monitor.reconcileNext_eq]
      simp [Ne.symm hs0, ht1]
    have hsn : Monitor.shouldNotify devId s0 "open" (t 1) thr = decide (thr ≤ (0 : Int)) := by
      simp only [Monitor.shouldNotify, hrec]
      simp [ht1]
    rw [hsn, Monitor.openDur_one]
    simp only [decide_eq_true_eq]
    constructor
    · intro h
      exact ⟨h, fun j h1 h2 => by omega⟩
    · rintro ⟨h, -⟩
      exact h

/-- Witness for C2 with polls at times 60, 120, 180, 240 (one per minute plus
one) and threshold 2: durations are 0, 1, 2, 3 minutes, so the notification is
dispatched exactly at cycle 3, the first crossing, and not at cycle 4. -/
theorem c2_notification_once_per_open_session_witness :
    Monitor.notifiedAt "dev" sampleClosed (fun j : Nat => 60 * (j : Int)) 2 3 = true ∧
    Monitor.notifiedAt "dev" sampleClosed (fun j : Nat => 60 * (j : Int)) 2 4 = false := by
  have hmono : ∀ j k : Nat, j ≤ k →
      (fun j : Nat => 60 * (j : Int)) j ≤ (fun j : Nat => 60 * (j : Int)) k := by
    intro j k h
    simp only
    omega
  constructor
  · exact (c2_notification_once_per_open_session "dev" sampleClosed
      (fun j : Nat => 60 * (j : Int)) 2 (by decide) (by norm_num) hmono 3 (by norm_num)).mpr
      ⟨by decide, by intro j h1 h2; interval_cases j <;> decide⟩
  · have h := c2_notification_once_per_open_session "dev" sampleClosed
      (fun j : Nat => 60 * (j : Int)) 2 (by decide) (by norm_num) hmono 4 (by norm_num)
    have hneg : ¬ (2 ≤ Monitor.openDur (fun j : Nat => 60 * (j : Int)) 4 ∧
        ∀ j, 1 ≤ j → j < 4 → Monitor.openDur (fun j : Nat => 60 * (j : Int)) j < 2) := by
      rintro ⟨-, hall⟩
      have h3 := hall 3 (by norm_num) (by norm_num)
      revert h3
      decide
    cases hb : Monitor.notifiedAt "dev" sampleClosed (fun j : Nat => 60 * (j : Int)) 2 4
    · exact hb
    · exact absurd (h.mp hb) hneg
